import Mathlib

/-!
Verification development for the snakefish IPC core: a hybrid socket /
shared-memory channel with a two-level reference-counting protocol
(`src/src/channel.h`), and a process-handle abstraction ("thread") that runs a
callable in a forked process (`src/src/thread.h`).

The repository sources available here are the two header files. Constants,
inline member bodies (`thread::get_result`, `thread::is_alive`), documented
exception contracts and the deleted special members are embedded directly from
those headers. The out-of-line member bodies (channel.cpp / thread.cpp) are not
part of the available sources; those operations are modelled from the spec, as
marked in their doc comments.
-/

namespace snakefish

/-! ## Constants, from src/src/channel.h lines 20-22 -/

def PICKLE_PROTOCOL : Nat := 4

def MAX_SOCK_MSG_SIZE : Nat := 1024

def DEFAULT_CHANNEL_SIZE : Nat := 2 * 1024 * 1024 * 1024

/-! ## Channel reference counting

`channel` holds a pointer to a global (interprocess) counter `ref_cnt` and a
pointer to a process-local counter `local_ref_cnt` (channel.h lines 147-155).
Copies made within one process share both counter objects, so the counter pair
itself is the shared state; we model that pair. -/

/-- Values of the two reference counters shared by the copies of one channel
endpoint: `ref_cnt` is the global/interprocess counter (stored in shared
memory), `local_ref_cnt` the process-local counter (channel.h lines 147-155). -/
structure RefCounts where
  ref_cnt : Nat
  local_ref_cnt : Nat
  deriving Repr, DecidableEq

/-- Modelled from the spec: the effect of the copy constructor
`channel::channel(const channel &)` (declared channel.h line 47; its body,
in channel.cpp, is missing from the sources) on the shared counter pair.
Spec §4.2: "Copy-constructing an endpoint within a process increments only the
local counter; the global counter is untouched". -/
def channel_copy (c : RefCounts) : RefCounts :=
  { c with local_ref_cnt := c.local_ref_cnt + 1 }

/-- Modelled from the spec: the effect of the move constructor
`channel::channel(channel &&)` (declared channel.h line 57; body missing) on
the counter pair. Spec §4.2: moving "transfers both counter references ...
without touching either counter's value". -/
def channel_move (c : RefCounts) : RefCounts := c

/-- Modelled from the spec: the effect of `channel::fork()` (declared
channel.h line 124; body missing). Spec §4.2: "It increments the global
counter by one, pre-registering the about-to-exist process as a holder." -/
def channel_fork (c : RefCounts) : RefCounts :=
  { c with ref_cnt := c.ref_cnt + 1 }

/-- Modelled from the spec: the effect of the destructor `channel::~channel()`
(declared channel.h line 42; body missing). Spec §4.2: destroying decrements
the local counter; if it reaches zero the global counter is decremented; if
the global counter reaches zero teardown runs. Returns the new counter values
and whether teardown (close socket, release arena mapping) is performed. -/
def channel_destruct (c : RefCounts) : RefCounts × Bool :=
  let l := c.local_ref_cnt - 1
  if l = 0 then
    let g := c.ref_cnt - 1
    (⟨g, l⟩, g = 0)
  else
    (⟨c.ref_cnt, l⟩, false)

/-! ## Channel transport -/

/-- Frames carried by the duplex socket. Spec §6: "framing on the wire is: a
fixed-size length header, a one-byte frame kind (direct payload vs.
arena-signal), followed by either the inline payload (direct) or an
(offset, length) pair (arena-signal)". `direct` records the length header
explicitly next to the inline payload. -/
inductive Frame where
  | direct (len : Nat) (payload : List Nat)
  | arenaSignal (offset : Nat) (len : Nat)
  deriving Repr, DecidableEq

/-- Error kinds of the transport layer. Both surface as `std::runtime_error`
in the C++ API (channel.h lines 80-82): insufficient arena space (capacity)
and socket/framing failures (transport). -/
inductive ChanError where
  | capacity
  | transport
  deriving Repr, DecidableEq

/-- State of one direction of a channel: the FIFO of in-flight socket frames,
and the shared arena (capacity, free space, bump cursor, staged payloads keyed
by their offset). Spec §3 and §4.2. -/
structure ChanState where
  sockQ : List Frame
  arenaCapacity : Nat
  arenaFree : Nat
  arenaCursor : Nat
  arenaData : List (Nat × List Nat)
  deriving Repr, DecidableEq

/-- Modelled from the spec: `channel::send_bytes` (declared channel.h line 84;
body missing). Spec §4.2: length at or below the small-message threshold goes
directly onto the socket with a length prefix and no arena interaction;
otherwise `length` bytes are claimed from the arena free space — if free space
is insufficient the call fails immediately with a capacity error — and on
success the payload is staged in the arena and an arena-signal control frame
is sent. The function is total: there is no blocking, retry, or backpressure. -/
def send_bytes (st : ChanState) (bytes : List Nat) : Except ChanError ChanState :=
  if bytes.length ≤ MAX_SOCK_MSG_SIZE then
    .ok { st with sockQ := st.sockQ ++ [.direct bytes.length bytes] }
  else if st.arenaFree < bytes.length then
    .error .capacity
  else
    .ok { st with
          arenaFree := st.arenaFree - bytes.length
          arenaCursor := st.arenaCursor + bytes.length
          arenaData := st.arenaData ++ [(st.arenaCursor, bytes)]
          sockQ := st.sockQ ++ [.arenaSignal st.arenaCursor bytes.length] }

/-- Outcome of one receive call. `blocked` represents the real call blocking
on an empty socket (spec §4.2: the receive path "blocks on the socket until
... a frame ... arrives"); a pure model cannot block, so the stuck state is
made explicit. -/
inductive RecvOutcome where
  | blocked
  | failed (e : ChanError)
  | received (bytes : List Nat) (st : ChanState)
  deriving Repr, DecidableEq

/-- Modelled from the spec: `channel::receive_bytes` (declared channel.h
line 109; body missing). Spec §4.2: waits for a direct frame or an
arena-signal frame of the expected length; for an arena frame the payload is
copied out of the arena at the signalled offset and the space is reclaimed;
a frame of unexpected length is a content error. -/
def receive_bytes (st : ChanState) (len : Nat) : RecvOutcome :=
  match st.sockQ with
  | [] => .blocked
  | .direct l payload :: rest =>
      if l = len then .received payload { st with sockQ := rest }
      else .failed .transport
  | .arenaSignal off l :: rest =>
      if l = len then
        match st.arenaData.lookup off with
        | some payload =>
            .received payload
              { st with
                sockQ := rest
                arenaFree := st.arenaFree + len
                arenaData := st.arenaData.filter (fun p => p.1 != off) }
        | none => .failed .transport
      else .failed .transport

/-! ## Channel creation -/

/-- The two environment failures `create_channel` can run into, per the
documented contract in channel.h lines 169-170: socket creation failing, or
the `mmap()` acquiring the shared arena failing. -/
inductive SysFailure where
  | socketFailure
  | mmapFailure
  deriving Repr, DecidableEq

/-- The C++ exception kinds named by the header contracts. -/
inductive CppException where
  | runtime_error
  | bad_alloc
  deriving Repr, DecidableEq

/-- Exception kind raised by channel construction for each environment
failure, transcribed from the documented throws of `create_channel`
(channel.h lines 169-170 and 182-183): `std::runtime_error` if socket
creation failed, `std::bad_alloc` if `mmap()` failed. -/
def construction_exception : SysFailure → CppException
  | .socketFailure => .runtime_error
  | .mmapFailure => .bad_alloc

/-- Modelled from the spec: `create_channel(buffer_size)` (declared channel.h
line 185; body missing). On success returns a pair of connected endpoints
whose shared arena has the requested capacity and is initially empty; on an
environment failure it raises the exception documented in the header. -/
def create_channel (env : Option SysFailure) (buffer_size : Nat) :
    Except CppException (ChanState × ChanState) :=
  match env with
  | some f => .error (construction_exception f)
  | none =>
      let st : ChanState :=
        { sockQ := [], arenaCapacity := buffer_size, arenaFree := buffer_size,
          arenaCursor := 0, arenaData := [] }
      .ok (st, st)

/-- The zero-argument overload `create_channel()` (channel.h line 172), which
the header documents as using buffer size `DEFAULT_CHANNEL_SIZE`. -/
def create_channel_default (env : Option SysFailure) :
    Except CppException (ChanState × ChanState) :=
  create_channel env DEFAULT_CHANNEL_SIZE

/-! ## Process handles ("threads") -/

/-- Status of the child OS process as observable by the parent. -/
inductive ProcStatus where
  | running
  | exitedNormal (code : Nat)
  | exitedAbnormal
  deriving Repr, DecidableEq

/-- The usage error raised by joining a handle that was never started. -/
inductive UsageError where
  | joinBeforeStart
  deriving Repr, DecidableEq

/-- State of a `thread` handle, mirroring the data members of class `thread`
(thread.h lines 117-124). `child_status` abstracts the cached raw wait status
as a `ProcStatus`; `ret_val` is the cached result object, `none` while no
result has been received. `α` stands for the opaque result value type
(`py::object`). -/
structure ThreadState (α : Type) where
  is_parent : Bool
  child_pid : Int
  started : Bool
  alive : Bool
  child_status : ProcStatus
  ret_val : Option α
  deriving Repr, DecidableEq

/-- The constructor `thread(py::function f)` (thread.h lines 46-48, inline in
the header): `is_parent(false), child_pid(0), started(false), alive(false),
child_status(0)`. The raw placeholder status 0 of a never-started handle is
modelled as `.running`; it is never consulted while `started` is false. -/
def mk_thread {α : Type} : ThreadState α :=
  { is_parent := false, child_pid := 0, started := false, alive := false,
    child_status := .running, ret_val := none }

/-- Modelled from the spec: the parent-side effect of `thread::start()`
(declared thread.h line 59; body missing). Spec §4.3: the originating process
assumes the parent role, records the child's process identifier, and marks
the state RUNNING. -/
def thread_start {α : Type} (t : ThreadState α) (pid : Int) : ThreadState α :=
  { t with is_parent := true, started := true, alive := true, child_pid := pid }

/-- Modelled from the spec: the reap / result-receive / cache steps shared by
`join()` and `try_join()` (spec §4.3). `status` is the terminal status the OS
reports on reaping; `result` is the object received from the channel. Both
the raw exit status and the result are cached and the handle leaves the
RUNNING state. -/
def thread_reap {α : Type} (t : ThreadState α) (status : ProcStatus) (result : α) :
    ThreadState α :=
  { t with alive := false, child_status := status, ret_val := some result }

/-- Modelled from the spec: `thread::join()` (declared thread.h line 67; body
missing). Spec §4.3: fails with a usage error if called before `start()`;
otherwise blocks until the OS process terminates — so `status` stands for the
terminal status observed once the block ends — then reaps, receives the
result from the channel, and caches both. -/
def thread_join {α : Type} (t : ThreadState α) (status : ProcStatus) (result : α) :
    Except UsageError (ThreadState α) :=
  if t.started then .ok (thread_reap t status result)
  else .error .joinBeforeStart

/-- Modelled from the spec: `thread::try_join()` (declared thread.h line 74;
body missing), "the non-blocking version of join()". Spec §4.3: a
non-blocking status check; if the process has not yet terminated
(`status = .running`) it returns without changing state; otherwise it
performs the same reap/receive/cache steps as `join()`. -/
def thread_try_join {α : Type} (t : ThreadState α) (status : ProcStatus) (result : α) :
    Except UsageError (ThreadState α) :=
  if t.started then
    match status with
    | .running => .ok t
    | s => .ok (thread_reap t s result)
  else .error .joinBeforeStart

/-- Modelled from the spec: `thread::get_exit_status()` (declared thread.h
line 94; body missing). Header contract, thread.h lines 87-89: "-1 if the
thread hasn't been started yet. -2 if the thread hasn't exited yet. -3 if the
thread exited abnormally. Otherwise, the exit status given by the thread". -/
def get_exit_status {α : Type} (t : ThreadState α) : Int :=
  if !t.started then -1
  else if t.alive then -2
  else
    match t.child_status with
    | .running => -2
    | .exitedAbnormal => -3
    | .exitedNormal code => (code : Int)

/-- Embeds `thread::get_result()` whose body is inline in the header
(thread.h line 99): `return ret_val;`. -/
def get_result {α : Type} (t : ThreadState α) : Option α := t.ret_val

/-- Embeds `thread::is_alive()` whose body is inline in the header
(thread.h line 82): `return alive;`. -/
def is_alive {α : Type} (t : ThreadState α) : Bool := t.alive

/-! ## C++ special-member availability

Class `thread` deletes all of its copy and move operations (thread.h
lines 21-39). We embed the declarations and the C++ overload-resolution rule
that selecting a deleted function makes the program ill-formed, and that
move construction/assignment falls back to the copy operation only when no
move operation is declared at all. -/

/-- How one special member function is declared in a class. -/
inductive SpecialMemberDecl where
  | deleted
  | defaulted
  | userProvided
  | notDeclared
  deriving Repr, DecidableEq

/-- The copy/move special members of a C++ class. -/
structure CppSpecialMembers where
  copy_ctor : SpecialMemberDecl
  copy_assign : SpecialMemberDecl
  move_ctor : SpecialMemberDecl
  move_assign : SpecialMemberDecl
  deriving Repr, DecidableEq

/-- Special members of class `thread`, transcribed from thread.h lines 21-39:
`thread(const thread &t) = delete; thread &operator=(const thread &t) =
delete; thread(thread &&t) = delete; thread &operator=(thread &&t) =
delete;`. -/
def thread_special_members : CppSpecialMembers :=
  { copy_ctor := .deleted, copy_assign := .deleted,
    move_ctor := .deleted, move_assign := .deleted }

/-- A declared special member is usable in overload resolution iff it is not
deleted (a deleted member participates but selecting it is ill-formed). -/
def usableDecl : SpecialMemberDecl → Bool
  | .defaulted => true
  | .userProvided => true
  | .deleted => false
  | .notDeclared => false

/-- Whether an object of the class can be copy-constructed. -/
def canCopyConstruct (c : CppSpecialMembers) : Bool := usableDecl c.copy_ctor

/-- Whether an object of the class can be copy-assigned. -/
def canCopyAssign (c : CppSpecialMembers) : Bool := usableDecl c.copy_assign

/-- Whether an object of the class can be constructed from an rvalue: a
declared move constructor (even a deleted one) is selected; only when none is
declared does overload resolution fall back to the copy constructor. -/
def canMoveConstruct (c : CppSpecialMembers) : Bool :=
  match c.move_ctor with
  | .notDeclared => usableDecl c.copy_ctor
  | d => usableDecl d

/-- Whether an object of the class can be assigned from an rvalue, with the
same fallback rule as move construction. -/
def canMoveAssign (c : CppSpecialMembers) : Bool :=
  match c.move_assign with
  | .notDeclared => usableDecl c.copy_assign
  | d => usableDecl d

/-! Concrete states used by the witnesses. -/

/-- An idle channel direction with an empty socket queue and a zero-capacity
arena. -/
def chan0 : ChanState :=
  { sockQ := [], arenaCapacity := 0, arenaFree := 0, arenaCursor := 0,
    arenaData := [] }

/-! Claims -/

/-- Claim C1: copy-constructing a channel endpoint within a process increments
only the process-local reference counter and leaves the global (interprocess)
reference counter unchanged. -/
theorem channel_copy_increments_local_only (c : RefCounts) :
    (channel_copy c).ref_cnt = c.ref_cnt ∧
    (channel_copy c).local_ref_cnt = c.local_ref_cnt + 1 :=
  ⟨rfl, rfl⟩

/-- Claim C2: `get_exit_status()` returns -1 if the handle was never started,
-2 if it was started but the process has not yet terminated, -3 if the process
terminated abnormally, and otherwise the exit code reported by the process. -/
theorem get_exit_status_cases {α : Type} (t : ThreadState α) (code : Nat) :
    (t.started = false → get_exit_status t = -1) ∧
    (t.started = true → t.alive = true → get_exit_status t = -2) ∧
    (t.started = true → t.alive = false → t.child_status = .exitedAbnormal →
      get_exit_status t = -3) ∧
    (t.started = true → t.alive = false → t.child_status = .exitedNormal code →
      get_exit_status t = (code : Int)) := by
  refine ⟨fun h => ?_, fun h1 h2 => ?_, fun h1 h2 h3 => ?_, fun h1 h2 h3 => ?_⟩
  · simp [get_exit_status, h]
  · simp [get_exit_status, h1, h2]
  · simp [get_exit_status, h1, h2, h3]
  · simp [get_exit_status, h1, h2, h3]

/-- Witness for claim C2 at the four concrete handle states: freshly
constructed, started, reaped after an abnormal exit, and reaped after a
normal exit with code 7. -/
theorem get_exit_status_cases_witness :
    get_exit_status (mk_thread : ThreadState Nat) = -1 ∧
    get_exit_status (thread_start (mk_thread : ThreadState Nat) 42) = -2 ∧
    get_exit_status
      (thread_reap (thread_start (mk_thread : ThreadState Nat) 42) .exitedAbnormal 0) = -3 ∧
    get_exit_status
      (thread_reap (thread_start (mk_thread : ThreadState Nat) 42) (.exitedNormal 7) 0) = 7 :=
  ⟨(get_exit_status_cases (mk_thread : ThreadState Nat) 0).1 rfl,
   (get_exit_status_cases (thread_start mk_thread 42) 0).2.1 rfl rfl,
   (get_exit_status_cases (thread_reap (thread_start mk_thread 42) .exitedAbnormal 0) 0).2.2.1
     rfl rfl rfl,
   (get_exit_status_cases (thread_reap (thread_start mk_thread 42) (.exitedNormal 7) 0) 7).2.2.2
     rfl rfl rfl⟩

/-- Claim C3: for a payload of length at most the small-message threshold,
sending it with `send_bytes` and then receiving that length on the peer yields
exactly the bytes that were sent. -/
theorem small_message_roundtrip (st : ChanState) (bytes : List Nat)
    (hlen : bytes.length ≤ MAX_SOCK_MSG_SIZE) (hq : st.sockQ = []) :
    ∃ st', send_bytes st bytes = .ok st' ∧
      receive_bytes st' bytes.length = .received bytes { st' with sockQ := [] } := by
  refine ⟨{ st with sockQ := st.sockQ ++ [.direct bytes.length bytes] }, ?_, ?_⟩
  · simp [send_bytes, hlen]
  · simp [receive_bytes, hq]

/-- Witness for claim C3: a 3-byte payload round-trips through an idle
channel direction unchanged. -/
theorem small_message_roundtrip_witness :
    ∃ st', send_bytes chan0 [5, 6, 7] = .ok st' ∧
      receive_bytes st' 3 = .received [5, 6, 7] { st' with sockQ := [] } :=
  small_message_roundtrip chan0 [5, 6, 7] (by decide) rfl

/-- Claim C4: a `send_bytes` call with a payload larger than the small-message
threshold fails immediately with a capacity error whenever the arena free
space is smaller than the payload; the step is a total function of the current
state, so there is no blocking and no internal retry. -/
theorem send_bytes_capacity_error (st : ChanState) (bytes : List Nat)
    (hbig : MAX_SOCK_MSG_SIZE < bytes.length) (hfree : st.arenaFree < bytes.length) :
    send_bytes st bytes = .error .capacity := by
  rw [send_bytes, if_neg (Nat.not_le.mpr hbig), if_pos hfree]

/-- Witness for claim C4: a 1025-byte payload sent over a direction whose
arena has no free space fails with the capacity error. -/
theorem send_bytes_capacity_error_witness :
    send_bytes chan0 (List.replicate 1025 0) = .error .capacity :=
  send_bytes_capacity_error chan0 (List.replicate 1025 0)
    (by norm_num [MAX_SOCK_MSG_SIZE]) (by norm_num [chan0])

/-- Claim C5: the small-message threshold is the fixed `MAX_SOCK_MSG_SIZE`
of 1024 bytes, and a send at or below it appends a direct frame carrying the
length prefix and the bytes to the socket queue while every arena field
(capacity, free space, cursor, staged data) is left untouched. -/
theorem send_bytes_small_path (st : ChanState) (bytes : List Nat)
    (hlen : bytes.length ≤ MAX_SOCK_MSG_SIZE) :
    MAX_SOCK_MSG_SIZE = 1024 ∧
    send_bytes st bytes =
      .ok { st with sockQ := st.sockQ ++ [.direct bytes.length bytes] } :=
  ⟨rfl, by simp [send_bytes, hlen]⟩

/-- Witness for claim C5: a 1-byte payload goes onto the socket queue as a
direct frame and the arena is untouched. -/
theorem send_bytes_small_path_witness :
    MAX_SOCK_MSG_SIZE = 1024 ∧
    send_bytes chan0 [9] = .ok { chan0 with sockQ := [.direct 1 [9]] } :=
  send_bytes_small_path chan0 [9] (by decide)

/-- Claim C6: on a started handle whose child has not terminated, `try_join`
returns without blocking and without changing the handle's state; once the
child has terminated it performs exactly the reap/receive/cache steps that
`join` performs. -/
theorem try_join_nonblocking_frame {α : Type} (t : ThreadState α)
    (s : ProcStatus) (r : α) (hst : t.started = true) :
    thread_try_join t .running r = .ok t ∧
    (s ≠ .running →
      thread_try_join t s r = .ok (thread_reap t s r) ∧
      thread_join t s r = .ok (thread_reap t s r)) := by
  refine ⟨by simp [thread_try_join, hst], fun hs => ?_⟩
  cases s with
  | running => exact absurd rfl hs
  | exitedNormal code =>
      exact ⟨by simp [thread_try_join, hst], by simp [thread_join, hst]⟩
  | exitedAbnormal =>
      exact ⟨by simp [thread_try_join, hst], by simp [thread_join, hst]⟩

/-- Witness for claim C6 on a concrete started handle: `try_join` under a
still-running child returns the state unchanged, and under a terminated
child it returns the reaped state. -/
theorem try_join_nonblocking_frame_witness :
    thread_try_join (thread_start (mk_thread : ThreadState Nat) 1) .running 9 =
      .ok (thread_start mk_thread 1) ∧
    thread_try_join (thread_start (mk_thread : ThreadState Nat) 1) (.exitedNormal 0) 9 =
      .ok (thread_reap (thread_start mk_thread 1) (.exitedNormal 0) 9) :=
  ⟨(try_join_nonblocking_frame (thread_start (mk_thread : ThreadState Nat) 1)
      (.exitedNormal 0) 9 rfl).1,
   ((try_join_nonblocking_frame (thread_start (mk_thread : ThreadState Nat) 1)
      (.exitedNormal 0) 9 rfl).2 (by decide)).1⟩

/-- Claim C7: `join()` called before `start()` fails with a usage error;
after `start()` it blocks until the child terminates (the terminal status is
the one observed when the block ends), reaps it, receives the result object
from the channel, and caches both the raw exit status and the result. -/
theorem join_requires_start_and_caches {α : Type} (t : ThreadState α)
    (s : ProcStatus) (r : α) :
    (t.started = false → thread_join t s r = .error .joinBeforeStart) ∧
    (t.started = true → s ≠ .running →
      ∃ t', thread_join t s r = .ok t' ∧
        t'.alive = false ∧ t'.child_status = s ∧ t'.ret_val = some r) := by
  refine ⟨fun h => by simp [thread_join, h], fun h _hs => ?_⟩
  exact ⟨thread_reap t s r, by simp [thread_join, h], rfl, rfl, rfl⟩

/-- Witness for claim C7: a never-started handle fails to join with the usage
error, and a started handle joined against a normal exit caches status and
result. -/
theorem join_requires_start_and_caches_witness :
    thread_join (mk_thread : ThreadState Nat) (.exitedNormal 0) 4 =
      .error .joinBeforeStart ∧
    ∃ t', thread_join (thread_start (mk_thread : ThreadState Nat) 8) (.exitedNormal 0) 4 =
        .ok t' ∧
      t'.alive = false ∧ t'.child_status = .exitedNormal 0 ∧ t'.ret_val = some 4 :=
  ⟨(join_requires_start_and_caches (mk_thread : ThreadState Nat) (.exitedNormal 0) 4).1 rfl,
   (join_requires_start_and_caches (thread_start (mk_thread : ThreadState Nat) 8)
     (.exitedNormal 0) 4).2 rfl (by decide)⟩

/-- Claim C8 counterexample: the header documents two distinct exception
kinds for channel construction — `std::runtime_error` for socket-creation
failure and `std::bad_alloc` for `mmap()` failure (channel.h lines 169-170) —
so construction does not fail with a single error kind covering both
failure modes. -/
theorem construction_error_kinds_differ :
    construction_exception .socketFailure ≠ construction_exception .mmapFailure := by
  decide

/-- Claim C8 (amended): `create_channel` with the default capacity of 2 GiB
either returns a pair of connected endpoints or fails with the documented
construction exception, of which there are two kinds: `std::runtime_error`
on socket-creation failure and `std::bad_alloc` on arena-acquisition
(memory-mapping) failure. -/
theorem create_channel_default_behaviour :
    (∃ p, create_channel_default none = .ok p ∧
      p.1.arenaCapacity = 2 * 1024 * 1024 * 1024 ∧
      p.2.arenaCapacity = 2 * 1024 * 1024 * 1024) ∧
    create_channel_default (some .socketFailure) = .error .runtime_error ∧
    create_channel_default (some .mmapFailure) = .error .bad_alloc :=
  ⟨⟨_, rfl, rfl, rfl⟩, rfl, rfl⟩

/-- Claim C9: `get_result()` returns the cached result field, and after a
successful join that cached value is exactly the result object produced by
the child's callable and received from the channel. -/
theorem get_result_cached {α : Type} (t t' : ThreadState α) (s : ProcStatus) (r : α) :
    get_result t = t.ret_val ∧
    (thread_join t s r = .ok t' → get_result t' = some r) := by
  refine ⟨rfl, fun h => ?_⟩
  rw [thread_join] at h
  by_cases hs : t.started
  · rw [if_pos hs] at h
    injection h with h2
    subst h2
    rfl
  · rw [if_neg hs] at h
    exact Except.noConfusion h

/-- Witness for claim C9: after joining a started handle whose child returned
11, `get_result` yields 11. -/
theorem get_result_cached_witness :
    get_result (mk_thread : ThreadState Nat) = none ∧
    get_result (thread_reap (thread_start (mk_thread : ThreadState Nat) 2)
      (.exitedNormal 0) 11) = some 11 :=
  ⟨(get_result_cached (mk_thread : ThreadState Nat) mk_thread .running 0).1,
   (get_result_cached (thread_start (mk_thread : ThreadState Nat) 2)
     (thread_reap (thread_start mk_thread 2) (.exitedNormal 0) 11)
     (.exitedNormal 0) 11).2 rfl⟩

/-- Claim C10: class `thread` can never be copied or moved — its copy
constructor, copy assignment, move constructor and move assignment are all
deleted, so no second handle object for the same child process can be made
from an existing one. -/
theorem thread_not_copyable_not_movable :
    canCopyConstruct thread_special_members = false ∧
    canCopyAssign thread_special_members = false ∧
    canMoveConstruct thread_special_members = false ∧
    canMoveAssign thread_special_members = false := by
  decide

end snakefish
